import Mathlib

/-!
Shallow embedding of the browser-verification scripts of this repository
(src/verification/verify_changes.py, verify_preamble.py,
verify_responsive_toolbar.py, verify_table.py, verify_icons.py,
verify_toolbar.py and src/verify_settings.py).

The scripts drive a page through Playwright.  We model:
  * DOM elements and the locator strategies the scripts use
    (CSS class selectors, get_by_text, get_by_label, get_by_role, nth),
  * Playwright resolution semantics: locator.first / locator.last pick a
    match from an ambiguous locator, while a strict action (click) on a
    locator raises when the match is not unique,
  * the control flow of each script (try/except/finally structure,
    early returns, re-raised exceptions) as total functions from a world
    describing the external behaviour (which fallible step fails first,
    what the DOM contains) to a result record (prints, clicks,
    screenshots written, whether the browser was closed, what exception
    escaped the function),
  * the sequence of filesystem operations each script performs, and
  * the session-operation trace of the responsive-toolbar probe.
-/

/-- A rendered DOM element, with the attributes the scripts select on. -/
structure Elem where
  classes : List String := []
  ancestorClasses : List String := []
  text : String := ""
  label : String := ""
  role : String := ""
  visible : Bool := true
deriving DecidableEq, Repr

/-- Whether the first list is an initial segment of the second. -/
def matchesAt : List Char → List Char → Bool
  | [], _ => true
  | _ :: _, [] => false
  | a :: as, b :: bs => (a == b) && matchesAt as bs

/-- Whether the first list occurs contiguously inside the second. -/
def hasSubList (pat : List Char) : List Char → Bool
  | [] => pat.isEmpty
  | c :: rest => matchesAt pat (c :: rest) || hasSubList pat rest

/-- Substring test used to model Playwright has_text / get_by_text
(non-exact) matching. -/
def strContainsSub (s pat : String) : Bool :=
  hasSubList pat.toList s.toList

/-- Strategy of verify_settings.py line 14: CSS selector
".fa-gear, .fa-cog". -/
def gearStrat (e : Elem) : Bool :=
  e.classes.contains "fa-gear" || e.classes.contains "fa-cog"

/-- Strategy of verify_changes.py line 126: selector
"div.mantine-Stack-root p.mantine-Text-root" with has_text "EXPLORER". -/
def explorerStrat (e : Elem) : Bool :=
  e.ancestorClasses.contains "mantine-Stack-root" &&
  e.classes.contains "mantine-Text-root" &&
  strContainsSub e.text "EXPLORER"

/-- Strategy of verify_preamble.py line 22: page.get_by_label("Wizards"). -/
def byLabelWizards (e : Elem) : Bool :=
  e.label == "Wizards"

/-- Strategy of verify_preamble.py line 25: CSS selector
".mantine-Stack-root > .mantine-ActionIcon-root" (before taking nth(3)). -/
def sidebarActionIcon (e : Elem) : Bool :=
  e.ancestorClasses.contains "mantine-Stack-root" &&
  e.classes.contains "mantine-ActionIcon-root"

/-- Strategy of verify_settings.py line 23: page.get_by_text("TeX Engine"),
a substring text match. -/
def texLinkStrat (e : Elem) : Bool :=
  strContainsSub e.text "TeX Engine"

/-- Strategy of verify_settings.py line 29: page.get_by_text("Editor",
exact=True). -/
def editorLinkStrat (e : Elem) : Bool :=
  e.text == "Editor"

/-- Strategy of verify_settings.py line 36: page.get_by_role("textbox",
name="Font Family"). -/
def fontInputStrat (e : Elem) : Bool :=
  e.role == "textbox" && e.label == "Font Family"

/-- verify_settings.py line 14: `page.locator(".fa-gear, .fa-cog").last`.
Playwright `.last` picks the last of all matches, even when the locator
matches several elements. -/
def gearIconResolve (dom : List Elem) : Option Elem :=
  (dom.filter gearStrat).getLast?

/-- verify_changes.py lines 126-127:
`page.locator("div.mantine-Stack-root p.mantine-Text-root", has_text="EXPLORER").first`.
Playwright `.first` picks the first of all matches, even when the locator
matches several elements. -/
def explorerHeaderResolve (dom : List Elem) : Option Elem :=
  (dom.filter explorerStrat).head?

/-- Modelled from the spec (section 4.2 Resilient Locator): strategies are
tried in declared order; the first strategy yielding exactly one match
wins; a strategy with zero matches or more than one match is skipped; if
no strategy yields a unique match, resolution returns none.  This
definition follows the words of the spec and is compared against the
resolution code embedded from the source. -/
def resolveSpec (strategies : List (Elem → Bool)) (dom : List Elem) : Option Elem :=
  match strategies with
  | [] => none
  | strat :: rest =>
    match dom.filter strat with
    | [e] => some e
    | _ => resolveSpec rest dom

/-- Outcome of a click attempt driven by a locator chain. -/
inductive ClickOutcome where
  | clicked (e : Elem)
  | failedClick (selector : String)
deriving DecidableEq, Repr

/-- Name of the first strategy of the verify_preamble.py fallback chain. -/
def wizardsLabelSel : String := "get_by_label Wizards"

/-- Name of the second strategy of the verify_preamble.py fallback chain. -/
def actionIconNthSel : String := ".mantine-Stack-root > .mantine-ActionIcon-root nth 3"

/-- verify_preamble.py line 25 (the except branch): click
`.mantine-Stack-root > .mantine-ActionIcon-root` at nth(3).  An nth
locator is unambiguous by construction: it clicks the element at index 3
when it exists and raises a timeout error when it does not. -/
def wizardsFallback (dom : List Elem) : ClickOutcome :=
  match (dom.filter sidebarActionIcon)[3]? with
  | some e => .clicked e
  | none => .failedClick actionIconNthSel

/-- verify_preamble.py lines 21-25: try `get_by_label("Wizards").click()`;
on any exception fall back to the nth(3) ActionIcon click.  A strict
Playwright click succeeds only when the locator has exactly one match:
zero matches raise a timeout error, two or more matches raise a strict
mode violation; either exception is caught and the fallback runs. -/
def wizardsClickChain (dom : List Elem) : ClickOutcome :=
  match dom.filter byLabelWizards with
  | [e] => .clicked e
  | _ => wizardsFallback dom

/-- verify_preamble.py line 24: the message printed when the first
strategy of the chain raised and the fallback is about to run. -/
def wizardsChainPrinted (dom : List Elem) : List String :=
  match dom.filter byLabelWizards with
  | [_] => []
  | _ => ["Could not find by label Wizards, trying alternate method..."]

/-- Default Playwright action timeout in milliseconds (no script changes
it for the two clicks of the fallback chain). -/
def defaultClickTimeout : Nat := 30000

/-- Worst-case time the fallback click spends: instantaneous when the
element at nth(3) exists, a full action timeout when it does not. -/
def wizardsFallbackCost (dom : List Elem) : Nat :=
  if ((dom.filter sidebarActionIcon)[3]?).isSome then 0 else defaultClickTimeout

/-- Worst-case time of the whole fallback chain: a zero-match first
strategy waits out its full action timeout before raising, a multi-match
first strategy raises a strict mode violation immediately, then the
fallback cost is added whenever the fallback runs. -/
def wizardsClickChainCost (dom : List Elem) : Nat :=
  match dom.filter byLabelWizards with
  | [] => defaultClickTimeout + wizardsFallbackCost dom
  | [_] => 0
  | _ => wizardsFallbackCost dom

/-- Which strategies the failure value of the chain names: the Playwright
exception that escapes names only the selector of the click that raised
it. -/
def triedReport : ClickOutcome → List String
  | .clicked _ => []
  | .failedClick sel => [sel]

/-- Modelled from the spec (section 4.2): on exhaustion, resolution fails
with ElementNotFound carrying the spec and ALL strategies tried; for the
wizards chain that is both strategy names. -/
def specTriedStrategies : List String :=
  [wizardsLabelSel, actionIconNthSel]

/-- Launch configuration: the base URL every script navigates to. -/
structure SessionConfig where
  baseURL : String := "http://localhost:1420"
deriving DecidableEq, Repr

/-- A live browser session: one context plus one page.  The id
distinguishes freshly launched sessions; the scripts never read it. -/
structure Session where
  id : Nat
  baseURL : String
deriving DecidableEq, Repr

/-- Launching a browser for a scenario: every call with a fresh id
produces a new session (no pooling across scenarios). -/
def acquireSession (cfg : SessionConfig) (freshId : Nat) : Session :=
  { id := freshId, baseURL := cfg.baseURL }

/-- The default configuration used by every script. -/
def defaultConfig : SessionConfig := {}

/-- Result of one run of run_verification (verify_changes.py): the
checkpoint screenshots written, whether the finally block closed the
browser, and the exception (named by its failing step) that escaped the
function, if any. -/
structure ChangesResult where
  screenshots : List String
  browserClosed : Bool
  raised : Option String
deriving DecidableEq, Repr

/-- Names of the fourteen fallible operations of run_verification
(verify_changes.py lines 16-131), in program order. -/
def changesStepName (k : Fin 14) : String :=
  match k.val with
  | 0 => "page.goto"
  | 1 => "wait_for_load_state networkidle"
  | 2 => "start_page_tab.click right"
  | 3 => "expect menu_dropdown to_be_visible"
  | 4 => "expect menu_dropdown to_contain_text Close Others"
  | 5 => "screenshot verification/1_tab_context_menu.png"
  | 6 => "page.click body"
  | 7 => "wand ActionIcon click"
  | 8 => "stack button nth 1 click"
  | 9 => "expect OUTLINE to_be_visible"
  | 10 => "screenshot verification/2_outline_view.png"
  | 11 => "stack button nth 0 click"
  | 12 => "expect EXPLORER header to_be_visible"
  | _ => "screenshot verification/3_files_view.png"

/-- Checkpoint paths of verify_changes.py. -/
def changesShot1 : String := "verification/1_tab_context_menu.png"

/-- Second checkpoint path of verify_changes.py. -/
def changesShot2 : String := "verification/2_outline_view.png"

/-- Third checkpoint path of verify_changes.py. -/
def changesShot3 : String := "verification/3_files_view.png"

/-- verify_changes.py run_verification, as a function of the session and
of which fallible step (if any) raises first.  The whole body is inside
try/except/finally: the except block re-raises the exception and the
finally block closes the browser, so the browser is closed on every
path and the exception escapes the function.  The screenshots written
are exactly the checkpoint steps executed before the failing step
(screenshot steps are at indices 5, 10 and 13). -/
def run_verification_with (s : Session) (failAt : Option (Fin 14)) : ChangesResult :=
  match failAt with
  | none =>
    { screenshots := [changesShot1, changesShot2, changesShot3]
      browserClosed := true
      raised := none }
  | some k =>
    { screenshots :=
        (if 5 < k.val then [changesShot1] else []) ++
        (if 10 < k.val then [changesShot2] else []) ++
        (if 13 < k.val then [changesShot3] else [])
      browserClosed := true
      raised := some (changesStepName k) }

/-- run_verification as invoked by the script: a session freshly
acquired from the default configuration. -/
def run_verification (failAt : Option (Fin 14)) : ChangesResult :=
  run_verification_with (acquireSession defaultConfig 0) failAt

/-- Process exit code of `python verify_changes.py`: the re-raised
exception propagates out of main, so Python exits 1 exactly when a step
failed, and 0 otherwise. -/
def run_verification_main_exit (failAt : Option (Fin 14)) : Nat :=
  if (run_verification failAt).raised.isSome then 1 else 0

/-- Result of one run of verify_preamble_wizard (verify_preamble.py). -/
structure PreambleResult where
  printedFailedLoad : Bool
  browserClosed : Bool
  raised : Option String
deriving DecidableEq, Repr

/-- Names of the six fallible post-navigation operations of
verify_preamble_wizard, in program order.  Step 0 is the wizards click
chain failing as a whole (both strategies exhausted). -/
def preambleStepName (k : Fin 6) : String :=
  match k.val with
  | 0 => "wizards click chain"
  | 1 => "get_by_text Preamble Wizard click"
  | 2 => "get_by_text Packages click"
  | 3 => "get_by_role button Code click"
  | 4 => "code or pre text_content"
  | _ => "screenshot verification/preamble_wizard.png"

/-- External behaviour of one run of verify_preamble.py: whether the
initial page.goto raises, and which later fallible step (if any) raises
first. -/
structure PreambleWorld where
  navFails : Bool
  failAt : Option (Fin 6)
deriving DecidableEq, Repr

/-- verify_preamble.py verify_preamble_wizard.  There is no try/finally
around the body: `browser.close()` is only the last statement.  When the
initial page.goto raises, the except branch prints "Failed to load page"
and returns WITHOUT closing the browser; when any later step raises, the
exception escapes the function and the browser is again not closed.
Only a fully successful run reaches the close. -/
def verify_preamble_wizard (w : PreambleWorld) : PreambleResult :=
  if w.navFails then
    { printedFailedLoad := true, browserClosed := false, raised := none }
  else
    match w.failAt with
    | some k =>
      { printedFailedLoad := false
        browserClosed := false
        raised := some (preambleStepName k) }
    | none =>
      { printedFailedLoad := false, browserClosed := true, raised := none }

/-- Names of the six fallible operations of verify_responsive_toolbar
(verify_responsive_toolbar.py lines 14-41), in program order. -/
def responsiveStepName (k : Fin 6) : String :=
  match k.val with
  | 0 => "page.goto"
  | 1 => "wait_for_load_state networkidle"
  | 2 => "expect Test.tex to_be_visible"
  | 3 => "screenshot verification/responsive_toolbar_small.png"
  | 4 => "set_viewport_size 1280x720"
  | _ => "screenshot verification/responsive_toolbar_large.png"

/-- First checkpoint path of verify_responsive_toolbar.py. -/
def responsiveShotSmall : String := "verification/responsive_toolbar_small.png"

/-- Second checkpoint path of verify_responsive_toolbar.py. -/
def responsiveShotLarge : String := "verification/responsive_toolbar_large.png"

/-- Failure-capture path of verify_responsive_toolbar.py line 47. -/
def responsiveErrorShot : String := "verification/error_responsive.png"

/-- The exception that escapes when the failure-capture screenshot of the
except block itself raises. -/
def responsiveErrorShotRaisedMsg : String :=
  "screenshot verification/error_responsive.png raised"

/-- External behaviour of one run of verify_responsive_toolbar: which
fallible step (if any) raises first, and whether the failure-capture
screenshot in the except block itself raises. -/
structure ResponsiveWorld where
  failAt : Option (Fin 6)
  handlerShotRaises : Bool
deriving DecidableEq, Repr

/-- Result of one run of verify_responsive_toolbar: messages printed,
screenshots written, whether the finally block closed the browser, the
error the except block caught (the scenario failure), and the exception
that escaped the function, if any. -/
structure ResponsiveResult where
  printed : List String
  screenshots : List String
  browserClosed : Bool
  caughtError : Option String
  raised : Option String
deriving DecidableEq, Repr

/-- verify_responsive_toolbar.py verify_responsive_toolbar.  On success
both checkpoints are written and their messages printed.  On a step
error the except block prints the error and attempts one unguarded
screenshot: when that screenshot itself raises, its exception escapes
the except block and the function; otherwise the function returns
normally with the error swallowed.  The finally block closes the browser
on every path. -/
def verify_responsive_toolbar (w : ResponsiveWorld) : ResponsiveResult :=
  match w.failAt with
  | none =>
    { printed := ["Screenshot saved to verification/responsive_toolbar_small.png",
                  "Screenshot saved to verification/responsive_toolbar_large.png"]
      screenshots := [responsiveShotSmall, responsiveShotLarge]
      browserClosed := true
      caughtError := none
      raised := none }
  | some k =>
    let nm := responsiveStepName k
    let printedBefore :=
      if 3 < k.val then ["Screenshot saved to verification/responsive_toolbar_small.png"] else []
    let shotsBefore := if 3 < k.val then [responsiveShotSmall] else []
    if w.handlerShotRaises then
      { printed := printedBefore ++ ["Error: " ++ nm]
        screenshots := shotsBefore
        browserClosed := true
        caughtError := some nm
        raised := some responsiveErrorShotRaisedMsg }
    else
      { printed := printedBefore ++ ["Error: " ++ nm]
        screenshots := shotsBefore ++ [responsiveErrorShot]
        browserClosed := true
        caughtError := some nm
        raised := none }

/-- Process exit code of `python verify_responsive_toolbar.py`: only an
exception escaping the function makes Python exit 1, and the only
exception that can escape is the failure-capture screenshot raising
inside the except block. -/
def verify_responsive_toolbar_main_exit (w : ResponsiveWorld) : Nat :=
  if (verify_responsive_toolbar w).raised.isSome then 1 else 0

/-- External behaviour of one run of verify_settings: whether the
navigation block raises, the DOM rendered after load, and whether the
final screenshot raises. -/
structure SettingsWorld where
  navRaises : Bool
  dom : List Elem
  shotRaises : Bool
deriving DecidableEq, Repr

/-- Result of one run of verify_settings: messages printed, elements
clicked, screenshots written, whether the finally block closed the
browser, and the exception that escaped the function, if any. -/
structure SettingsResult where
  printed : List String
  clicks : List String
  screenshots : List String
  browserClosed : Bool
  raised : Option String
deriving DecidableEq, Repr

/-- verify_settings.py line 15: `gear_icon.is_visible()` on the `.last`
locator: false when the selector has no match, otherwise the visibility
of the last match. -/
def gearVisibleIn (dom : List Elem) : Bool :=
  match gearIconResolve dom with
  | some e => e.visible
  | none => false

/-- Playwright is_visible on a `.first` locator: false when the strategy
has no match, otherwise the visibility of the first match. -/
def firstVisible (strat : Elem → Bool) (dom : List Elem) : Bool :=
  match (dom.filter strat).head? with
  | some e => e.visible
  | none => false

/-- verify_settings.py verify_settings.  After navigation the gear icon
is looked up: when it is not visible the function prints "Gear icon not
found" and returns early, clicking nothing and writing no screenshot;
otherwise it clicks the gear, conditionally clicks the TeX Engine,
Editor and Font Family targets when each is visible, writes the final
screenshot and prints "Verification Complete".  Any exception inside the
try block is caught and printed (never re-raised); the finally block
closes the browser on every path. -/
def verify_settings (w : SettingsWorld) : SettingsResult :=
  if w.navRaises then
    { printed := ["Error: navigation"], clicks := [], screenshots := []
      browserClosed := true, raised := none }
  else if gearVisibleIn w.dom then
    let clicks :=
      ["gear icon"] ++
      (if firstVisible texLinkStrat w.dom then ["TeX Engine"] else []) ++
      (if firstVisible editorLinkStrat w.dom then ["Editor"] else []) ++
      (if firstVisible fontInputStrat w.dom then ["Font Family"] else [])
    if w.shotRaises then
      { printed := ["Error: screenshot"], clicks := clicks, screenshots := []
        browserClosed := true, raised := none }
    else
      { printed := ["Verification Complete"], clicks := clicks
        screenshots := ["verification_final.png"]
        browserClosed := true, raised := none }
  else
    { printed := ["Gear icon not found"], clicks := [], screenshots := []
      browserClosed := true, raised := none }

/-- Process exit code of `python verify_settings.py`: the except block
swallows every exception, so nothing escapes and Python always exits 0. -/
def verify_settings_main_exit (w : SettingsWorld) : Nat :=
  if (verify_settings w).raised.isSome then 1 else 0

/-- Load progress of a page after a navigation: whether the
DOMContentLoaded event fired, whether the load event fired, and whether
the network has been idle for the settle window.  Client-side hydration
keeps the network busy after the load event, so a hydrating page has
loadFired true and networkIdle false. -/
structure PageState where
  domContentLoaded : Bool
  loadFired : Bool
  networkIdle : Bool
deriving DecidableEq, Repr

/-- verify_changes.py lines 17-18 (also verify_settings.py,
verify_responsive_toolbar.py, verify_toolbar.py): page.goto waits for
the load event and the script then waits for the networkidle load
state, so the script proceeds past navigation only when both hold. -/
def changesNavigateSettled (s : PageState) : Bool :=
  s.loadFired && s.networkIdle

/-- verify_icons.py lines 9-11 (also verify_preamble.py and
verify_table.py): page.goto waits for the load event only, and the
script then sleeps a fixed wait_for_timeout with no networkidle wait,
so it proceeds as soon as the load event fired. -/
def iconsNavigateSettled (s : PageState) : Bool :=
  s.loadFired

/-- A filesystem operation performed by a script, in program order. -/
inductive FsOp where
  | mkdirIfAbsent (dir : String)
  | writeFile (path : String)
deriving DecidableEq, Repr

/-- Directory part of a path: everything before the final slash, empty
for a bare filename. -/
def dirOf (p : String) : String :=
  match p.toList.reverse.dropWhile (fun c => c != '/') with
  | [] => ""
  | _ :: rest => String.mk rest.reverse

/-- Whether every file written into a directory is preceded by a
creation of that directory (writes to the current directory need none). -/
def dirEnsuredFrom : List FsOp → List String → Bool
  | [], _ => true
  | .mkdirIfAbsent d :: rest, made => dirEnsuredFrom rest (d :: made)
  | .writeFile p :: rest, made =>
    (dirOf p == "" || made.contains (dirOf p)) && dirEnsuredFrom rest made

/-- Whether a script creates each output directory before first writing
into it. -/
def dirEnsured (ops : List FsOp) : Bool :=
  dirEnsuredFrom ops []

/-- Filesystem operations of verify_changes.py: the module body creates
the verification directory (lines 6-7) before run_verification writes
its three checkpoints. -/
def changesFsOps : List FsOp :=
  [.mkdirIfAbsent "verification",
   .writeFile "verification/1_tab_context_menu.png",
   .writeFile "verification/2_outline_view.png",
   .writeFile "verification/3_files_view.png"]

/-- Filesystem operations of verify_responsive_toolbar.py: main creates
the verification directory (lines 53-54) before the scenario writes its
checkpoints. -/
def responsiveFsOps : List FsOp :=
  [.mkdirIfAbsent "verification",
   .writeFile "verification/responsive_toolbar_small.png",
   .writeFile "verification/responsive_toolbar_large.png"]

/-- Filesystem operations of verify_toolbar.py: main creates the
verification directory (lines 173-174) before the scenario writes its
checkpoints. -/
def toolbarFsOps : List FsOp :=
  [.mkdirIfAbsent "verification",
   .writeFile "verification/start_page.png",
   .writeFile "verification/editor_toolbar.png"]

/-- Filesystem operations of verify_icons.py: a single checkpoint write
into verification/ with no directory creation anywhere in the module. -/
def iconsFsOps : List FsOp :=
  [.writeFile "verification/app_screenshot.png"]

/-- Filesystem operations of verify_preamble.py: a single checkpoint
write into verification/ with no directory creation anywhere in the
module. -/
def preambleFsOps : List FsOp :=
  [.writeFile "verification/preamble_wizard.png"]

/-- Filesystem operations of verify_table.py: a single checkpoint write
into verification/ with no directory creation anywhere in the module. -/
def tableFsOps : List FsOp :=
  [.writeFile "verification/app_loaded.png"]

/-- Filesystem operations of verify_settings.py: the final screenshot is
a bare filename in the working directory. -/
def settingsFsOps : List FsOp :=
  [.writeFile "verification_final.png"]

/-- One operation on the browser session, as performed by
verify_responsive_toolbar.py. -/
inductive SessOp where
  | launch (width height : Nat)
  | navigate (url : String)
  | waitLoad (state : String)
  | expectVisible (target : String)
  | waitMs (ms : Nat)
  | screenshot (path : String)
  | resize (width height : Nat)
  | close
deriving DecidableEq, Repr

/-- The session-operation trace of a successful run of
verify_responsive_toolbar.py, in program order: launch at 600x720,
navigate and settle, first checkpoint, resize to 1280x720, settle,
second checkpoint, close. -/
def responsiveTrace : List SessOp :=
  [.launch 600 720,
   .navigate "http://localhost:1420",
   .waitLoad "networkidle",
   .expectVisible "Test.tex",
   .waitMs 1000,
   .screenshot "verification/responsive_toolbar_small.png",
   .resize 1280 720,
   .waitMs 1000,
   .screenshot "verification/responsive_toolbar_large.png",
   .close]

/-- The viewports a trace establishes, in order: the launch viewport
followed by each resize target. -/
def viewportsOf : List SessOp → List (Nat × Nat)
  | [] => []
  | .launch w h :: rest => (w, h) :: viewportsOf rest
  | .resize w h :: rest => (w, h) :: viewportsOf rest
  | _ :: rest => viewportsOf rest

/-- Number of browser launches in a trace. -/
def countLaunches (t : List SessOp) : Nat :=
  t.countP fun op => match op with | .launch _ _ => true | _ => false

/-- Number of browser closes in a trace. -/
def countCloses (t : List SessOp) : Nat :=
  t.countP fun op => match op with | .close => true | _ => false

/-- Number of screenshots in a trace. -/
def countShots (t : List SessOp) : Nat :=
  t.countP fun op => match op with | .screenshot _ => true | _ => false

/-- Whether a list of widths is ascending. -/
def sortedAsc : List Nat → Bool
  | [] => true
  | [_] => true
  | a :: b :: rest => (a ≤ b : Bool) && sortedAsc (b :: rest)

/-- Whether every resize in a trace is immediately followed by a settle
wait. -/
def resizeSettled : List SessOp → Bool
  | [] => true
  | .resize _ _ :: rest =>
    (match rest with | .waitMs _ :: _ => true | _ => false) && resizeSettled rest
  | _ :: rest => resizeSettled rest

/-- Whether each viewport established by a launch or a resize receives a
screenshot before the next resize or the close: the boolean argument
records whether a screenshot is still owed for the current viewport. -/
def shotPerViewportFrom : List SessOp → Bool → Bool
  | [], owed => !owed
  | .screenshot _ :: rest, _ => shotPerViewportFrom rest false
  | .launch _ _ :: rest, owed => !owed && shotPerViewportFrom rest true
  | .resize _ _ :: rest, owed => !owed && shotPerViewportFrom rest true
  | .close :: rest, owed => !owed && shotPerViewportFrom rest false
  | _ :: rest, owed => shotPerViewportFrom rest owed

/-- Whether a trace records one screenshot checkpoint per viewport. -/
def shotPerViewport (t : List SessOp) : Bool :=
  shotPerViewportFrom t false

/-- A world where the initial navigation of verify_preamble.py fails. -/
def preambleNavFailWorld : PreambleWorld := { navFails := true, failAt := none }

/-- A world where the goto of verify_responsive_toolbar fails and the
failure-capture screenshot succeeds. -/
def respGotoFailWorld : ResponsiveWorld := { failAt := some 0, handlerShotRaises := false }

/-- A world where a step of verify_responsive_toolbar fails and the
failure-capture screenshot itself raises. -/
def respMaskWorld : ResponsiveWorld := { failAt := some 2, handlerShotRaises := true }

/-- A world where a step of verify_responsive_toolbar fails and the
failure-capture screenshot succeeds. -/
def respShotOkWorld : ResponsiveWorld := { failAt := some 2, handlerShotRaises := false }

/-- An element carrying the fa-gear class. -/
def gearElemA : Elem := { classes := ["fa-gear"] }

/-- An element carrying the fa-cog class. -/
def gearElemB : Elem := { classes := ["fa-cog"] }

/-- A DOM in which the gear selector is ambiguous: two matches. -/
def gearAmbiguousDom : List Elem := [gearElemA, gearElemB]

/-- An element labelled Wizards. -/
def wizardLabelElem : Elem := { label := "Wizards" }

/-- A settled page after hydration finished: network idle. -/
def settledPage : PageState :=
  { domContentLoaded := true, loadFired := true, networkIdle := true }

/-- A page whose load event fired but which is still hydrating: the
network is not yet idle. -/
def hydratingPage : PageState :=
  { domContentLoaded := true, loadFired := true, networkIdle := false }

/-- A settings world where the page loads but renders no gear icon. -/
def settingsNoGearWorld : SettingsWorld :=
  { navRaises := false, dom := [], shotRaises := false }

/-- The fallback click never costs more than one action timeout. -/
theorem wizardsFallbackCost_le (dom : List Elem) :
    wizardsFallbackCost dom ≤ defaultClickTimeout := by
  unfold wizardsFallbackCost
  split <;> simp

/-- C1, counterexample: in verify_preamble_wizard, when the initial
navigation fails the function prints "Failed to load page" and returns
early without closing the browser, so teardown is NOT performed on every
exit path. -/
theorem C1_teardown_counterexample :
    (verify_preamble_wizard preambleNavFailWorld).browserClosed = false ∧
    (verify_preamble_wizard preambleNavFailWorld).printedFailedLoad = true :=
  ⟨rfl, rfl⟩

/-- C1, amended: the scenarios with a try/finally teardown
(run_verification, verify_responsive_toolbar, verify_settings) close the
browser on every exit path, including when a step raises; but
verify_preamble_wizard closes the browser only on a fully successful
run, leaking it when the initial navigation fails or any later step
raises. -/
theorem C1_teardown_amended :
    ∀ (s : Session) (c : Option (Fin 14)) (w : ResponsiveWorld)
      (sw : SettingsWorld) (p : PreambleWorld),
      (run_verification_with s c).browserClosed = true ∧
      (verify_responsive_toolbar w).browserClosed = true ∧
      (verify_settings sw).browserClosed = true ∧
      (verify_preamble_wizard p).browserClosed = (!p.navFails && p.failAt.isNone) := by
  intro s c w sw p
  refine ⟨?_, ?_, ?_, ?_⟩
  · cases c <;> rfl
  · rcases w with ⟨fa, hs⟩
    cases fa <;> cases hs <;> rfl
  · rcases sw with ⟨nav, dom, shot⟩
    cases nav
    · cases hg : gearVisibleIn dom
      · simp [verify_settings, hg]
      · cases shot <;> simp [verify_settings, hg]
    · rfl
  · rcases p with ⟨nav, fa⟩
    cases nav
    · cases fa <;> rfl
    · rfl

/-- C2, counterexample: in verify_responsive_toolbar the except block
swallows the step error, so a run whose goto fails (the scenario did not
pass) still makes the process exit 0. -/
theorem C2_exit_code_counterexample :
    (verify_responsive_toolbar respGotoFailWorld).caughtError = some "page.goto" ∧
    verify_responsive_toolbar_main_exit respGotoFailWorld = 0 := by decide

/-- C2, amended: only verify_changes re-raises the caught exception, so
its process exits 1 exactly when a step failed and 0 otherwise;
verify_responsive_toolbar swallows the error and exits 0 unless the
failure-capture screenshot itself raises; verify_settings swallows every
error and always exits 0. -/
theorem C2_exit_code_amended :
    ∀ (c : Option (Fin 14)) (w : ResponsiveWorld) (sw : SettingsWorld),
      run_verification_main_exit c = (if c.isSome then 1 else 0) ∧
      verify_responsive_toolbar_main_exit w =
        (if w.failAt.isSome && w.handlerShotRaises then 1 else 0) ∧
      verify_settings_main_exit sw = 0 := by
  intro c w sw
  refine ⟨?_, ?_, ?_⟩
  · cases c <;> rfl
  · rcases w with ⟨fa, hs⟩
    cases fa <;> cases hs <;> rfl
  · rcases sw with ⟨nav, dom, shot⟩
    cases nav
    · cases hg : gearVisibleIn dom
      · simp [verify_settings_main_exit, verify_settings, hg]
      · cases shot <;> simp [verify_settings_main_exit, verify_settings, hg]
    · rfl

/-- C3, counterexample: in verify_settings the gear locator is resolved
with Playwright .last, so on a DOM where the strategy yields two matches
the code takes the last match instead of skipping the ambiguous strategy
as the spec-modelled resolver does. -/
theorem C3_ambiguous_skip_counterexample :
    (gearAmbiguousDom.filter gearStrat).length = 2 ∧
    gearIconResolve gearAmbiguousDom = some gearElemB ∧
    resolveSpec [gearStrat] gearAmbiguousDom = none := by decide

/-- C3, amended: only the try/except fallback chain of
verify_preamble_wizard has first-unique-match-wins semantics: the first
strategy is taken exactly when it yields one match, and an ambiguous or
absent first strategy falls through to the second; the resolutions in
verify_changes and verify_settings instead take the first or last of
multiple matches. -/
theorem C3_locator_order_amended :
    ∀ (dom : List Elem) (e : Elem),
      (dom.filter byLabelWizards = [e] → wizardsClickChain dom = .clicked e) ∧
      (1 < (dom.filter byLabelWizards).length →
        wizardsClickChain dom = wizardsFallback dom) ∧
      ((dom.filter byLabelWizards).length = 0 →
        wizardsClickChain dom = wizardsFallback dom) := by
  intro dom e
  refine ⟨?_, ?_, ?_⟩
  · intro h
    simp [wizardsClickChain, h]
  · intro h
    rcases hl : dom.filter byLabelWizards with _ | ⟨a, _ | ⟨b, t⟩⟩
    · rw [hl] at h; simp at h
    · rw [hl] at h; simp at h
    · simp [wizardsClickChain, hl]
  · intro h
    rcases hl : dom.filter byLabelWizards with _ | ⟨a, t⟩
    · simp [wizardsClickChain, hl]
    · rw [hl] at h; simp at h

/-- C3, witness: on a DOM whose only element is labelled Wizards, the
chain clicks exactly that element. -/
theorem C3_locator_order_witness :
    wizardsClickChain [wizardLabelElem] = .clicked wizardLabelElem :=
  (C3_locator_order_amended [wizardLabelElem] wizardLabelElem).1 (by decide)

/-- C4, counterexample: on an empty DOM both strategies of the wizards
chain fail, and the exception that escapes names only the last selector
tried, not the ElementNotFound report of the spec carrying all tried
strategies. -/
theorem C4_notfound_report_counterexample :
    wizardsClickChain [] = .failedClick actionIconNthSel ∧
    triedReport (wizardsClickChain []) ≠ specTriedStrategies := by decide

/-- C4, amended: when every strategy of the wizards chain is ambiguous or
absent the chain fails within the sum of the two per-action timeouts
(never hanging), raising an error that names only the last strategy,
with the fallback attempt noted on standard output. -/
theorem C4_bounded_failure_amended :
    ∀ dom : List Elem,
      wizardsClickChainCost dom ≤ 2 * defaultClickTimeout ∧
      ((dom.filter byLabelWizards).length ≠ 1 →
        (dom.filter sidebarActionIcon)[3]? = none →
        wizardsClickChain dom = .failedClick actionIconNthSel ∧
        wizardsChainPrinted dom =
          ["Could not find by label Wizards, trying alternate method..."]) := by
  intro dom
  constructor
  · have hf := wizardsFallbackCost_le dom
    rcases hl : dom.filter byLabelWizards with _ | ⟨a, _ | ⟨b, t⟩⟩
    · simp only [wizardsClickChainCost, hl]
      omega
    · simp only [wizardsClickChainCost, hl]
      omega
    · simp only [wizardsClickChainCost, hl]
      omega
  · intro h1 h2
    rcases hl : dom.filter byLabelWizards with _ | ⟨a, _ | ⟨b, t⟩⟩
    · constructor
      · simp [wizardsClickChain, wizardsFallback, hl, h2]
      · simp [wizardsChainPrinted, hl]
    · rw [hl] at h1; simp at h1
    · constructor
      · simp [wizardsClickChain, wizardsFallback, hl, h2]
      · simp [wizardsChainPrinted, hl]

/-- C4, witness: on the empty DOM the chain fails with the bounded cost
and the last-strategy error. -/
theorem C4_bounded_failure_witness :
    wizardsClickChainCost [] ≤ 2 * defaultClickTimeout ∧
    (wizardsClickChain [] = .failedClick actionIconNthSel ∧
     wizardsChainPrinted [] =
       ["Could not find by label Wizards, trying alternate method..."]) :=
  ⟨(C4_bounded_failure_amended []).1,
   (C4_bounded_failure_amended []).2 (by decide) (by decide)⟩

/-- C5, counterexample: the navigation of verify_icons counts as settled
on a page whose load event fired while the network is still busy with
hydration, so not every Navigate step requires network idle. -/
theorem C5_networkidle_counterexample :
    iconsNavigateSettled hydratingPage = true ∧
    hydratingPage.networkIdle = false := by decide

/-- C5, amended: the navigations of verify_changes, verify_settings,
verify_responsive_toolbar and verify_toolbar succeed only once the page
reached network idle (beyond the load event); the navigations of
verify_icons, verify_preamble and verify_table require only the load
event plus a fixed sleep and do not wait for network idle. -/
theorem C5_networkidle_amended :
    ∀ s : PageState,
      (changesNavigateSettled s = true → s.networkIdle = true ∧ s.loadFired = true) ∧
      (iconsNavigateSettled s = true → s.loadFired = true) := by
  intro s
  constructor
  · intro h
    simp [changesNavigateSettled] at h
    exact ⟨h.2, h.1⟩
  · intro h
    simpa [iconsNavigateSettled] using h

/-- C5, witness: a fully settled page satisfies the changes navigation
condition and is network idle. -/
theorem C5_networkidle_witness :
    settledPage.networkIdle = true ∧ settledPage.loadFired = true :=
  (C5_networkidle_amended settledPage).1 (by decide)

/-- C6, counterexample: when the failure-capture screenshot of
verify_responsive_toolbar itself raises, its exception escapes the
except block and becomes the exception the scenario terminates with,
replacing the original step error. -/
theorem C6_failure_capture_counterexample :
    (verify_responsive_toolbar respMaskWorld).caughtError = some (responsiveStepName 2) ∧
    (verify_responsive_toolbar respMaskWorld).raised = some responsiveErrorShotRaisedMsg ∧
    (verify_responsive_toolbar respMaskWorld).raised ≠ none ∧
    (verify_responsive_toolbar respMaskWorld).raised ≠ some (responsiveStepName 2) := by
  decide

/-- C6, amended: whenever a step of verify_responsive_toolbar fails, the
original error is printed before the screenshot attempt (so the printed
diagnostic always reports it, even when the screenshot raises), and when
the screenshot does not raise the failure-capture artifact is written;
but the screenshot call is unguarded, so its own exception escapes. -/
theorem C6_failure_capture_amended :
    ∀ (w : ResponsiveWorld) (k : Fin 6),
      w.failAt = some k →
      ("Error: " ++ responsiveStepName k) ∈ (verify_responsive_toolbar w).printed ∧
      (w.handlerShotRaises = false →
        responsiveErrorShot ∈ (verify_responsive_toolbar w).screenshots) := by
  intro w k hk
  rcases w with ⟨fa, hs⟩
  simp only at hk
  subst hk
  cases hs
  · constructor
    · simp [verify_responsive_toolbar]
    · intro _
      simp [verify_responsive_toolbar]
  · constructor
    · simp [verify_responsive_toolbar]
    · intro h
      simp at h

/-- C6, witness: a failing run whose failure screenshot succeeds prints
the original error and writes the failure-capture artifact. -/
theorem C6_failure_capture_witness :
    ("Error: " ++ responsiveStepName 2) ∈ (verify_responsive_toolbar respShotOkWorld).printed ∧
    (respShotOkWorld.handlerShotRaises = false →
      responsiveErrorShot ∈ (verify_responsive_toolbar respShotOkWorld).screenshots) :=
  C6_failure_capture_amended respShotOkWorld 2 rfl

/-- C7, counterexample: verify_icons writes its checkpoint into
verification/ without any directory creation anywhere in the module, so
not every scenario creates the artifact directory before its first
checkpoint write. -/
theorem C7_outdir_counterexample :
    dirEnsured iconsFsOps = false ∧
    dirOf "verification/app_screenshot.png" = "verification" := by decide

/-- C7, amended: verify_changes, verify_responsive_toolbar and
verify_toolbar create the verification directory before their first
checkpoint write, and verify_settings writes a bare filename needing no
directory; but verify_icons, verify_preamble and verify_table write into
verification/ without ever creating it. -/
theorem C7_outdir_amended :
    dirEnsured changesFsOps = true ∧
    dirEnsured responsiveFsOps = true ∧
    dirEnsured toolbarFsOps = true ∧
    dirEnsured settingsFsOps = true ∧
    dirEnsured iconsFsOps = false ∧
    dirEnsured preambleFsOps = false ∧
    dirEnsured tableFsOps = false := by decide

/-- C8: the responsive probe establishes its viewports in ascending
width order on a single session (one launch, the only close is the final
operation), follows every resize with a settle wait, and records exactly
one screenshot checkpoint per viewport. -/
theorem C8_responsive_probe_trace :
    viewportsOf responsiveTrace = [(600, 720), (1280, 720)] ∧
    sortedAsc ((viewportsOf responsiveTrace).map Prod.fst) = true ∧
    countLaunches responsiveTrace = 1 ∧
    countCloses responsiveTrace.dropLast = 0 ∧
    responsiveTrace.getLast? = some .close ∧
    resizeSettled responsiveTrace = true ∧
    shotPerViewport responsiveTrace = true ∧
    countShots responsiveTrace = (viewportsOf responsiveTrace).length := by decide

/-- C9: two sessions freshly acquired from the same configuration with
distinct fresh ids are distinct sessions, and running the
verify_changes scenario on either against the same external behaviour
yields the same result. -/
theorem C9_fresh_session_determinism :
    ∀ (cfg : SessionConfig) (i j : Nat) (failAt : Option (Fin 14)),
      i ≠ j →
      acquireSession cfg i ≠ acquireSession cfg j ∧
      run_verification_with (acquireSession cfg i) failAt =
        run_verification_with (acquireSession cfg j) failAt := by
  intro cfg i j failAt hij
  refine ⟨?_, rfl⟩
  intro h
  exact hij (congrArg Session.id h)

/-- C9, witness: sessions 0 and 1 on the default configuration are
distinct and produce identical results on a fully successful run. -/
theorem C9_fresh_session_determinism_witness :
    acquireSession defaultConfig 0 ≠ acquireSession defaultConfig 1 ∧
    run_verification_with (acquireSession defaultConfig 0) none =
      run_verification_with (acquireSession defaultConfig 1) none :=
  C9_fresh_session_determinism defaultConfig 0 1 none (by decide)

/-- C10: in verify_settings, when the page loads but the gear icon is
not visible, the function prints "Gear icon not found" and returns early
having clicked nothing and written no screenshot, and the finally block
still closes the browser. -/
theorem C10_gear_early_return :
    ∀ w : SettingsWorld,
      w.navRaises = false →
      gearVisibleIn w.dom = false →
      (verify_settings w).printed = ["Gear icon not found"] ∧
      (verify_settings w).clicks = [] ∧
      (verify_settings w).screenshots = [] ∧
      (verify_settings w).browserClosed = true := by
  intro w h1 h2
  simp [verify_settings, h1, h2]

/-- C10, witness: a loaded page with an empty DOM has no visible gear
icon and takes the early-return path with the browser closed. -/
theorem C10_gear_early_return_witness :
    (verify_settings settingsNoGearWorld).printed = ["Gear icon not found"] ∧
    (verify_settings settingsNoGearWorld).clicks = [] ∧
    (verify_settings settingsNoGearWorld).screenshots = [] ∧
    (verify_settings settingsNoGearWorld).browserClosed = true :=
  C10_gear_early_return settingsNoGearWorld rfl rfl
